import Mathlib

/-!
Shallow embedding of `pRT_make_spec.py`, a script that generates
petitRADTRANS transit-spectrum templates per spectral order.

Floating-point wavelengths, radii and abundances are modelled as
rationals; the stellar-temperature expression, which applies a real
fourth root, is modelled over the reals with `Real.rpow`.  The external
petitRADTRANS engine (`Radtrans` / `calc_transm`) is abstracted as an
oracle indexed by the invocation number, returning either the pair
(transit-radius array, wavelength array) or an error; the script itself
contains no exception handling, so an oracle error ends the run.
-/

namespace PRT

/-- A Python value that is either a float scalar or a numpy array of
floats.  In the script, `W_min` / `W_max` are scalars in the no-file
branch and numpy arrays in the order-by-order branch, and both can flow
into `compute_model`. -/
inductive WVal where
  | scalar : ℚ → WVal
  | array : List ℚ → WVal
deriving DecidableEq

/-- The parsed command-line arguments (argparse block, lines 80-98).
`wlens_file` holds the unpickled content of the file at `--wlens-file`
(a list of per-order wavelength arrays), or `none` when the flag is
absent.  `Teq`, `Teff`, `Tint` are argparse `type=int`. -/
structure Args where
  planet : String
  Rp : ℚ
  Rs : ℚ
  grav : ℚ
  Teq : ℤ
  Teff : Option ℤ
  Tint : Option ℤ
  mmw : ℚ
  wmin : ℚ
  wmax : ℚ
  wlens_file : Option (List (List ℚ))
  species : List String
deriving DecidableEq

/-- `wfactor = 0.01` (line 115). -/
def wfactor : ℚ := 1 / 100

/-- argparse default of `--wmin` (1.2, line 89). -/
def wminDefault : ℚ := 6 / 5

/-- argparse default of `--wmax` (2.5, line 90). -/
def wmaxDefault : ℚ := 5 / 2

/-- `solar = '1x'` (line 145). -/
def solar : String := "1x"

/-- Scalar-times-value with numpy broadcasting: a scalar times an array
multiplies elementwise. -/
def scaleW (c : ℚ) : WVal → WVal
  | WVal.scalar q => WVal.scalar (c * q)
  | WVal.array l => WVal.array (l.map (fun q => c * q))

/-- Line 56: `lamb_inf, lamb_sup = (1-wfactor)*wmin, wmax*(1+wfactor)`,
the window pair handed to `Radtrans` as `wlen_bords_micron`. -/
def windowBoundsV (wmin wmax : WVal) (wf : ℚ) : WVal × WVal :=
  (scaleW (1 - wf) wmin, scaleW (1 + wf) wmax)

/-- `compute_model` (lines 55-76): pads the window and invokes the
external engine; the engine (`Radtrans` + `calc_transm`) is the oracle,
indexed by the invocation number, and returns `(Rtransit, wlens)`. -/
def compute_model (oracle : ℕ → WVal × WVal → Except String (List ℚ × List ℚ))
    (idx : ℕ) (wmin wmax : WVal) (wf : ℚ) : Except String (List ℚ × List ℚ) :=
  oracle idx (windowBoundsV wmin wmax wf)

/-- The loop at lines 179-181 collecting `A[idet][0]` for each order;
`none` models the `IndexError` raised on an empty entry. -/
def collectFirst : List (List ℚ) → Option (List ℚ)
  | [] => some []
  | r :: rest =>
    match r.head?, collectFirst rest with
    | some x, some l => some (x :: l)
    | _, _ => none

/-- The loop at lines 179-181 collecting `A[idet][-1]` for each order. -/
def collectLast : List (List ℚ) → Option (List ℚ)
  | [] => some []
  | r :: rest =>
    match r.getLast?, collectLast rest with
    | some x, some l => some (x :: l)
    | _, _ => none

/-- `W_min` after the division `W_min /= 1e3` (lines 177-184). -/
def W_min_um (A : List (List ℚ)) : Option (List ℚ) :=
  (collectFirst A).map (fun l => l.map (fun w => w / 1000))

/-- `W_max` after the division `W_max /= 1e3` (lines 178-185). -/
def W_max_um (A : List (List ℚ)) : Option (List ℚ) :=
  (collectLast A).map (fun l => l.map (fun w => w / 1000))

/-- The order bookkeeping produced by the wavelength block
(lines 166-195). -/
structure OrderSetup where
  ndet : ℕ
  det : List ℤ
  wminV : WVal
  wmaxV : WVal
  order_by_order : Bool
deriving DecidableEq

/-- Lines 166-195: with a wavelength file, `ndet = len(A)`,
`det = np.arange(ndet)` and the per-order min/max arrays; without one,
a single order `det = [1]` spanning `args.wmin` to `args.wmax`. -/
def setupOrders (a : Args) : Option OrderSetup :=
  match a.wlens_file with
  | some A =>
    match W_min_um A, W_max_um A with
    | some mins, some maxs =>
      some ⟨A.length, (List.range A.length).map Int.ofNat,
            WVal.array mins, WVal.array maxs, true⟩
    | _, _ => none
  | none => some ⟨1, [1], WVal.scalar a.wmin, WVal.scalar a.wmax, false⟩

/-- Lines 198-204: `save_dir = 'pRT_models/'` plus
`'{:s}_{}Solar_{}_R1M/'.format(planet, solar, sp)` with
`sp = '_'.join(species)`, plus `'order_by_order/'` in per-order mode. -/
def saveDir (planet : String) (species : List String) (obo : Bool) : String :=
  let sp := String.intercalate "_" species
  let s := "pRT_models/" ++ planet ++ "_" ++ solar ++ "Solar_" ++ sp ++ "_R1M/"
  if obo then s ++ "order_by_order/" else s

/-- Line 213: `DF = -1.0 * Rtransit**(2) / Rs**(2)` elementwise. -/
def DF (Rs : ℚ) (Rtransit : List ℚ) : List ℚ :=
  Rtransit.map (fun r => -1 * r ^ 2 / Rs ^ 2)

/-- Written from the spec claim, for comparison with `DF`: the flux
decrement as the (positive) squared radius ratio `(Rtransit/Rs)^2`. -/
def claimDF (Rs : ℚ) (Rtransit : List ℚ) : List ℚ :=
  Rtransit.map (fun r => (r / Rs) ^ 2)

/-- The integer inside `(...)**0.25` at line 123.  In Python, `+` binds
tighter than the bitwise `^`, and `^` is left-associative, so
`Tint^4+Teq^4` parses as `(Tint ^ (4 + Teq)) ^ 4`. -/
def tempBase (Tint Teq : ℤ) : ℤ := Int.xor (Int.xor Tint (4 + Teq)) 4

/-- Written from the spec claim, for comparison with `tempBase`:
the reading `(Tint XOR 4) + (Teq XOR 4)`. -/
def claimTempBase (Tint Teq : ℤ) : ℤ := Int.xor Tint 4 + Int.xor Teq 4

/-- Lines 122-125: each entry of the uniform temperature array.
`none` models the `TypeError` raised when `--Teff` is given without
`--Tint` (Python `None` in arithmetic). -/
noncomputable def temperatureEntry : Option ℤ → Option ℤ → ℤ → Option ℝ
  | some te, some ti, teq =>
    some ((te : ℝ) * ((tempBase ti teq : ℤ) : ℝ) ^ (0.25 : ℝ))
  | some _, none, _ => none
  | none, _, teq => some ((teq : ℤ) : ℝ)

/-- Written from the spec claim, for comparison with `temperatureEntry`:
`Teff * ((Tint XOR 4) + (Teq XOR 4))**0.25`. -/
noncomputable def claimTemperatureEntry (te ti teq : ℤ) : ℝ :=
  (te : ℝ) * ((claimTempBase ti teq : ℤ) : ℝ) ^ (0.25 : ℝ)

/-- The window arguments of the successive `compute_model` calls made by
the loop at lines 208-211: every iteration executes
`compute_model(W_min, W_max, wfactor)` with the loop-invariant
`W_min` / `W_max`. -/
def callTrace (wminV wmaxV : WVal) (det : List ℤ) : List (WVal × WVal) :=
  det.map (fun _ => windowBoundsV wminV wmaxV wfactor)

/-- The main loop (lines 208-235): for each order, call `compute_model`,
form `DF`, and dump `[wlens, DF]` to
`save_dir + 'template_det' + str(det[idet]) + '.pic'`.  Returns the
written files in order and, when the oracle raises, the error that ends
the run (nothing is caught). -/
def runLoop (oracle : ℕ → WVal × WVal → Except String (List ℚ × List ℚ))
    (Rs : ℚ) (sdir : String) (wminV wmaxV : WVal) :
    List ℤ → ℕ → List (String × (List ℚ × List ℚ)) × Option String
  | [], _ => ([], none)
  | d :: rest, idx =>
    match compute_model oracle idx wminV wmaxV wfactor with
    | Except.error e => ([], some e)
    | Except.ok res =>
      let out := (sdir ++ "template_det" ++ toString d ++ ".pic",
                  (res.2, DF Rs res.1))
      let r := runLoop oracle Rs sdir wminV wmaxV rest (idx + 1)
      (out :: r.1, r.2)

/-- The line-species list `LS` built from `--species` (lines 130-138). -/
def LS (species : List String) : List String :=
  (if "CO" ∈ species then ["CO_all_iso"] else []) ++
  (if "H2O" ∈ species then ["H2O_main_iso"] else []) ++
  (if "CO2" ∈ species then ["CO2_main_iso"] else []) ++
  (if "CH4" ∈ species then ["CH4_main_iso"] else []) ++
  (if "HCN" ∈ species then ["HCN_main_iso"] else []) ++
  (if "NH3" ∈ species then ["NH3_main_iso"] else []) ++
  (if "H2" ∈ species then ["H2_main_iso"] else [])

/-- The abundance dictionary (lines 146-154), as ordered key/value
pairs; each value is the constant multiplying `np.ones_like(pressures)`. -/
def abundances : List (String × ℚ) :=
  [("H2", 71 / 100), ("He", 27 / 100), ("H2O_main_iso", 1 / 1000),
   ("CO_all_iso", 1 / 1000), ("NH3", 11 / 500000),
   ("CO2_main_iso", 1 / 10000), ("CH4_main_iso", 1 / 1000),
   ("HCN_main_iso", 11 / 100000)]

/-! ## Theorems -/

/-- Claim C2, as stated, is false: line 213 carries a factor `-1.0`, so
the serialized flux decrement is the negative of the squared radius
ratio.  At `Rs = 1` and `Rtransit = [2]` the code stores `[-4]` while
the claim demands `[4]`. -/
theorem DF_claim_refuted : DF 1 [2] ≠ claimDF 1 [2] := by
  simp only [DF, claimDF, List.map_cons, List.map_nil, ne_eq,
    List.cons.injEq, and_true]
  norm_num

/-- Claim C2 (amended): for every order, the serialized flux-decrement
spectrum equals the negated squared radius ratio,
`DF = -(Rtransit/Rs)^2` elementwise. -/
theorem DF_eq_neg_square_of_quotient (Rs : ℚ) (Rtransit : List ℚ) :
    DF Rs Rtransit = Rtransit.map (fun r => -((r / Rs) ^ 2)) := by
  unfold DF
  exact congrArg (fun f => List.map f Rtransit)
    (funext fun r => by rw [div_pow]; ring)

/-- Claim C3: the abundance dictionary has exactly the fixed key
sequence `H2, He, H2O_main_iso, CO_all_iso, NH3, CO2_main_iso,
CH4_main_iso, HCN_main_iso` regardless of `--species`; selecting `NH3`
(resp. `H2`) puts `NH3_main_iso` (resp. `H2_main_iso`) in the
line-species list although the dictionary has no such key. -/
theorem abundance_keys_fixed (species : List String) :
    abundances.map Prod.fst =
      ["H2", "He", "H2O_main_iso", "CO_all_iso", "NH3", "CO2_main_iso",
       "CH4_main_iso", "HCN_main_iso"] ∧
    ("NH3" ∈ species → "NH3_main_iso" ∈ LS species) ∧
    "NH3_main_iso" ∉ abundances.map Prod.fst ∧
    ("H2" ∈ species → "H2_main_iso" ∈ LS species) ∧
    "H2_main_iso" ∉ abundances.map Prod.fst := by
  refine ⟨by decide, fun h => ?_, by decide, fun h => ?_, by decide⟩
  · simp [LS, h]
  · simp [LS, h]

/-- Witness for C3 at `--species NH3 H2`. -/
theorem abundance_keys_fixed_witness :
    "NH3_main_iso" ∈ LS ["NH3", "H2"] ∧ "H2_main_iso" ∈ LS ["NH3", "H2"] :=
  ⟨(abundance_keys_fixed ["NH3", "H2"]).2.1 (by decide),
   (abundance_keys_fixed ["NH3", "H2"]).2.2.2.1 (by decide)⟩

/-- Claim C5: every `compute_model` invocation hands the engine the
window padded by `wfactor = 0.01` on each side: lower bound
`(1 - 0.01) * wmin`, upper bound `(1 + 0.01) * wmax`. -/
theorem compute_model_pads_window (wmin wmax : ℚ) :
    wfactor = 1 / 100 ∧
    (∀ (oracle : ℕ → WVal × WVal → Except String (List ℚ × List ℚ)) (idx : ℕ),
      compute_model oracle idx (WVal.scalar wmin) (WVal.scalar wmax) wfactor =
        oracle idx (WVal.scalar ((1 - 1 / 100) * wmin),
                    WVal.scalar ((1 + 1 / 100) * wmax))) := by
  refine ⟨rfl, fun oracle idx => ?_⟩
  simp only [compute_model, windowBoundsV, scaleW, wfactor, mul_comm]

/-- Claim C7: without a wavelength file, exactly one order is set up:
`ndet = 1`, `det = [1]`, the window spans `args.wmin` to `args.wmax`
(whose argparse defaults are 1.2 and 2.5), and the loop makes exactly
one engine call. -/
theorem single_order_without_file (a : Args) (h : a.wlens_file = none) :
    setupOrders a =
      some ⟨1, [1], WVal.scalar a.wmin, WVal.scalar a.wmax, false⟩ ∧
    wminDefault = 12 / 10 ∧ wmaxDefault = 25 / 10 ∧
    (callTrace (WVal.scalar a.wmin) (WVal.scalar a.wmax) [1]).length = 1 := by
  refine ⟨?_, by norm_num [wminDefault], by norm_num [wmaxDefault], rfl⟩
  unfold setupOrders
  rw [h]

/-- Witness for C7 at a concrete argument record using the defaults. -/
theorem single_order_without_file_witness :
    setupOrders ⟨"gj1214b", 1, 1, 1000, 500, none, none, 2, wminDefault,
        wmaxDefault, none, ["H2"]⟩ =
      some ⟨1, [1], WVal.scalar wminDefault, WVal.scalar wmaxDefault, false⟩ :=
  (single_order_without_file ⟨"gj1214b", 1, 1, 1000, 500, none, none, 2,
    wminDefault, wmaxDefault, none, ["H2"]⟩ rfl).1

/-- Claim C4, as stated, is false: at `Teff = 1`, `Tint = 1`, `Teq = 1`
the code computes `(1 XOR (4 + 1)) XOR 4 = 0` inside the fourth root
(Python parses `Tint^4+Teq^4` as `(Tint ^ (4 + Teq)) ^ 4`, because `+`
binds tighter than the bitwise `^`), giving temperature `0`, while the
claim's reading `(1 XOR 4) + (1 XOR 4) = 10` gives `10 ** 0.25 ≠ 0`. -/
theorem temperature_claim_counterexample :
    temperatureEntry (some 1) (some 1) 1 ≠ some (claimTemperatureEntry 1 1 1) := by
  have hbase : tempBase 1 1 = 0 := by decide
  have hcb : claimTempBase 1 1 = 10 := by decide
  have hL : (((0 : ℤ) : ℝ)) ^ (0.25 : ℝ) = 0 := by
    rw [Int.cast_zero]
    exact Real.zero_rpow (by norm_num)
  have hR : (0 : ℝ) < (((10 : ℤ) : ℝ)) ^ (0.25 : ℝ) := by
    apply Real.rpow_pos_of_pos
    norm_num
  simp only [temperatureEntry, claimTemperatureEntry, hbase, hcb, ne_eq,
    Option.some.injEq]
  intro h
  rw [hL, mul_zero, Int.cast_one, one_mul] at h
  exact absurd h.symm (ne_of_gt hR)

/-- Claim C4 (amended): with `--Teff` and `--Tint` both given, every
entry of the uniform temperature array equals
`Teff * ((Tint XOR (4 + Teq)) XOR 4) ** 0.25` (the Python expression
`Tint^4+Teq^4` parses with `+` tighter than `^` and `^` left
associative); with `--Teff` absent, every entry equals `Teq`. -/
theorem temperature_entry_eq :
    (∀ te ti teq : ℤ,
      temperatureEntry (some te) (some ti) teq =
        some ((te : ℝ) *
          (((Int.xor (Int.xor ti (4 + teq)) 4 : ℤ) : ℝ)) ^ (0.25 : ℝ))) ∧
    (∀ (tiOpt : Option ℤ) (teq : ℤ),
      temperatureEntry none tiOpt teq = some ((teq : ℤ) : ℝ)) :=
  ⟨fun _ _ _ => rfl, fun _ _ => rfl⟩

/-- For every all-nonempty order list, collecting `A[idet][0]` per order
succeeds and yields the per-order heads. -/
theorem collectFirst_eq (A : List (List ℚ)) (h : ∀ r ∈ A, r ≠ []) :
    collectFirst A = some (A.map (fun r => r.headD 0)) := by
  induction A with
  | nil => rfl
  | cons r rest ih =>
    have hr : r ≠ [] := h r (List.mem_cons_self r rest)
    have hrest := ih (fun x hx => h x (List.mem_cons_of_mem r hx))
    cases r with
    | nil => exact absurd rfl hr
    | cons a as => simp [collectFirst, hrest]

/-- On a nonempty list, `getLast?` returns the `getLastD` value. -/
theorem getLast?_cons_eq (a : ℚ) (as : List ℚ) :
    (a :: as).getLast? = some ((a :: as).getLastD 0) := by
  induction as generalizing a with
  | nil => rfl
  | cons b bs ih =>
    rw [List.getLast?_cons_cons, ih b]
    rfl

/-- For every all-nonempty order list, collecting `A[idet][-1]` per
order succeeds and yields the per-order last elements. -/
theorem collectLast_eq (A : List (List ℚ)) (h : ∀ r ∈ A, r ≠ []) :
    collectLast A = some (A.map (fun r => r.getLastD 0)) := by
  induction A with
  | nil => rfl
  | cons r rest ih =>
    have hr : r ≠ [] := h r (List.mem_cons_self r rest)
    have hrest := ih (fun x hx => h x (List.mem_cons_of_mem r hx))
    cases r with
    | nil => exact absurd rfl hr
    | cons a as =>
      simp only [collectLast, hrest, getLast?_cons_eq, List.map_cons]

/-- Claim C6: with a wavelength file whose entries are all nonempty, the
number of orders equals the number of entries, and order `i` spans the
entry's first element over 1000 to its last element over 1000. -/
theorem order_windows_from_file (A : List (List ℚ)) (h : ∀ r ∈ A, r ≠ []) :
    W_min_um A = some (A.map (fun r => r.headD 0 / 1000)) ∧
    W_max_um A = some (A.map (fun r => r.getLastD 0 / 1000)) ∧
    ∀ a : Args, a.wlens_file = some A →
      setupOrders a = some ⟨A.length, (List.range A.length).map Int.ofNat,
        WVal.array (A.map (fun r => r.headD 0 / 1000)),
        WVal.array (A.map (fun r => r.getLastD 0 / 1000)), true⟩ := by
  have h1 : W_min_um A = some (A.map (fun r => r.headD 0 / 1000)) := by
    unfold W_min_um
    rw [collectFirst_eq A h]
    simp [List.map_map, Function.comp]
  have h2 : W_max_um A = some (A.map (fun r => r.getLastD 0 / 1000)) := by
    unfold W_max_um
    rw [collectLast_eq A h]
    simp [List.map_map, Function.comp]
  refine ⟨h1, h2, fun a ha => ?_⟩
  simp only [setupOrders, ha, h1, h2]

/-- Witness for C6 at the two-order file `[[1100, 1150], [1300, 1360]]`. -/
theorem order_windows_from_file_witness :
    W_min_um [[(1100 : ℚ), 1150], [1300, 1360]] = some [11 / 10, 13 / 10] ∧
    W_max_um [[(1100 : ℚ), 1150], [1300, 1360]] = some [23 / 20, 34 / 25] := by
  have h := order_windows_from_file [[(1100 : ℚ), 1150], [1300, 1360]]
    (by
      intro r hr
      simp only [List.mem_cons, List.not_mem_nil, or_false] at hr
      rcases hr with rfl | rfl <;> simp)
  constructor
  · rw [h.1]
    norm_num
  · rw [h.2.1]
    norm_num [List.getLastD]

/-- Claim C1 fails on the code: line 211 executes
`compute_model(W_min, W_max, wfactor)` inside the order loop, handing
the FULL min/max arrays (not `W_min[idet]`, `W_max[idet]`) to every
invocation.  Evaluated on the two-order file
`[[1200, 1210], [1500, 1520]]`, both engine calls receive the same
array-valued window pair, instead of one scalar window per order. -/
theorem order_loop_passes_full_arrays :
    (setupOrders ⟨"w189", 1, 1, 1000, 500, none, none, 2, wminDefault,
        wmaxDefault, some [[1200, 1210], [1500, 1520]], ["H2O"]⟩).map
      (fun s => callTrace s.wminV s.wmaxV s.det) =
    some [(WVal.array [297 / 250, 297 / 200],
           WVal.array [12221 / 10000, 1919 / 1250]),
          (WVal.array [297 / 250, 297 / 200],
           WVal.array [12221 / 10000, 1919 / 1250])] := by
  have hf : collectFirst [[(1200 : ℚ), 1210], [1500, 1520]] =
      some [1200, 1500] := rfl
  have hl : collectLast [[(1200 : ℚ), 1210], [1500, 1520]] =
      some [1210, 1520] := rfl
  have hmin : W_min_um [[(1200 : ℚ), 1210], [1500, 1520]] =
      some [6 / 5, 3 / 2] := by
    unfold W_min_um
    rw [hf]
    norm_num
  have hmax : W_max_um [[(1200 : ℚ), 1210], [1500, 1520]] =
      some [121 / 100, 38 / 25] := by
    unfold W_max_um
    rw [hl]
    norm_num
  simp only [setupOrders, hmin, hmax, Option.map_some]
  simp only [callTrace, windowBoundsV, scaleW, wfactor, List.map_cons,
    List.map_nil, List.length_cons, List.length_nil, List.range,
    List.range.loop, Int.ofNat_eq_coe]
  norm_num [List.replicate]

/-- Claim C8: the loop catches nothing.  If the engine succeeds on the
first `det₁.length` invocations and raises on the next one, the run
ends with that error: no retry happens and no order after the failing
one is processed, so exactly the `det₁.length` earlier orders produced
output files. -/
theorem loop_error_ends_run
    (oracle : ℕ → WVal × WVal → Except String (List ℚ × List ℚ))
    (Rs : ℚ) (sdir : String) (wv wx : WVal) (det₁ det₂ : List ℤ) (d : ℤ)
    (i0 : ℕ) (e : String) (f : ℕ → List ℚ × List ℚ)
    (hok : ∀ j, j < det₁.length →
      oracle (i0 + j) (windowBoundsV wv wx wfactor) = Except.ok (f (i0 + j)))
    (herr : oracle (i0 + det₁.length) (windowBoundsV wv wx wfactor) =
      Except.error e) :
    (runLoop oracle Rs sdir wv wx (det₁ ++ d :: det₂) i0).2 = some e ∧
    (runLoop oracle Rs sdir wv wx (det₁ ++ d :: det₂) i0).1.length =
      det₁.length := by
  induction det₁ generalizing i0 with
  | nil =>
    rw [List.length_nil, Nat.add_zero] at herr
    simp [runLoop, compute_model, herr]
  | cons a rest ih =>
    have hok0 : oracle i0 (windowBoundsV wv wx wfactor) =
        Except.ok (f i0) := by
      have h0 := hok 0 (by simp)
      rwa [Nat.add_zero] at h0
    have hok' : ∀ j, j < rest.length →
        oracle (i0 + 1 + j) (windowBoundsV wv wx wfactor) =
          Except.ok (f (i0 + 1 + j)) := by
      intro j hj
      have hstep := hok (j + 1) (by simpa using Nat.succ_lt_succ hj)
      rwa [show i0 + (j + 1) = i0 + 1 + j by omega] at hstep
    have herr' : oracle (i0 + 1 + rest.length)
        (windowBoundsV wv wx wfactor) = Except.error e := by
      rwa [show i0 + (a :: rest).length = i0 + 1 + rest.length by
        rw [List.length_cons]; omega] at herr
    have hIH := ih (i0 + 1) hok' herr'
    constructor
    · simpa [runLoop, compute_model, hok0] using hIH.1
    · simpa [runLoop, compute_model, hok0] using hIH.2

/-- A concrete engine for the C8 witness: succeeds on call 0, raises on
call 1. -/
def oracleFailSecond : ℕ → WVal × WVal → Except String (List ℚ × List ℚ) :=
  fun i _ => if i = 1 then Except.error "engine failure"
             else Except.ok ([1], [2])

/-- Witness for C8: with three orders and the engine raising on the
second call, the run ends with that error after writing exactly one
file. -/
theorem loop_error_ends_run_witness :
    (runLoop oracleFailSecond 1 "D/" (WVal.scalar 1) (WVal.scalar 2)
      ([0] ++ 1 :: [2]) 0).2 = some "engine failure" ∧
    (runLoop oracleFailSecond 1 "D/" (WVal.scalar 1) (WVal.scalar 2)
      ([0] ++ 1 :: [2]) 0).1.length = 1 :=
  loop_error_ends_run oracleFailSecond 1 "D/" (WVal.scalar 1)
    (WVal.scalar 2) [0] [2] 1 0 "engine failure" (fun _ => ([1], [2]))
    (fun j hj => by
      have hj0 := Nat.lt_one_iff.mp hj
      subst hj0
      rfl)
    rfl

/-- The literal pieces `'_' + '1x' + 'Solar_'` concatenate to
`'_1xSolar_'` after any planet name. -/
theorem append_solar_label (p : String) :
    p ++ "_" ++ "1x" ++ "Solar_" = p ++ "_1xSolar_" := by
  rw [String.append_assoc, String.append_assoc]
  rfl

/-- Claim C9: the output directory is
`'pRT_models/' + planet + '_1xSolar_' + '_'.join(species) + '_R1M/'`,
with `'order_by_order/'` appended exactly when a wavelength file was
supplied. -/
theorem save_dir_encoding (a : Args) (s : OrderSetup)
    (h : setupOrders a = some s) :
    saveDir a.planet a.species s.order_by_order =
      "pRT_models/" ++ a.planet ++ "_1xSolar_" ++
        String.intercalate "_" a.species ++ "_R1M/" ++
        (if a.wlens_file.isSome then "order_by_order/" else "") := by
  have hobo : s.order_by_order = a.wlens_file.isSome := by
    cases hf : a.wlens_file with
    | none =>
      simp only [setupOrders, hf, Option.some.injEq] at h
      rw [← h]
      rfl
    | some A =>
      simp only [setupOrders, hf] at h
      cases hmin : W_min_um A with
      | none =>
        rw [hmin] at h
        cases W_max_um A <;> simp at h
      | some mins =>
        cases hmax : W_max_um A with
        | none =>
          rw [hmin, hmax] at h
          simp at h
        | some maxs =>
          rw [hmin, hmax, Option.some.injEq] at h
          rw [← h]
          rfl
  rw [hobo]
  cases hs : a.wlens_file.isSome
  · simp only [saveDir, solar, Bool.false_eq_true, if_false,
      String.append_empty]
    rw [append_solar_label ("pRT_models/" ++ a.planet)]
  · simp only [saveDir, solar, if_true]
    rw [append_solar_label ("pRT_models/" ++ a.planet)]

/-- Witness for C9 at a concrete run without a wavelength file. -/
theorem save_dir_encoding_witness :
    saveDir "wasp76b" ["H2O", "CO"] false =
      "pRT_models/wasp76b_1xSolar_H2O_CO_R1M/" := by
  have h := save_dir_encoding
    ⟨"wasp76b", 1, 1, 1000, 500, none, none, 2, wminDefault, wmaxDefault,
      none, ["H2O", "CO"]⟩
    ⟨1, [1], WVal.scalar wminDefault, WVal.scalar wmaxDefault, false⟩ rfl
  rw [h]
  rfl

/-- Claim C10: when every engine call succeeds (call `i` returning
`f i = (Rtransit, wlens)`), the loop writes exactly one file per order,
named `sdir + 'template_det' + str(det[i]) + '.pic'` and holding the
pair `(wlens, DF)` of that order, and the run ends cleanly. -/
theorem per_order_output
    (oracle : ℕ → WVal × WVal → Except String (List ℚ × List ℚ))
    (f : ℕ → List ℚ × List ℚ)
    (h : ∀ i w, oracle i w = Except.ok (f i))
    (Rs : ℚ) (sdir : String) (wv wx : WVal) (det : List ℤ) (i0 : ℕ) :
    runLoop oracle Rs sdir wv wx det i0 =
      ((List.enumFrom i0 det).map (fun p =>
        (sdir ++ "template_det" ++ toString p.2 ++ ".pic",
         ((f p.1).2, DF Rs (f p.1).1))), none) := by
  induction det generalizing i0 with
  | nil => rfl
  | cons d rest ih =>
    simp only [runLoop, compute_model, h, List.enumFrom, List.map_cons]
    rw [ih (i0 + 1)]

/-- A concrete always-succeeding engine for the C10 witness: call `i`
returns transit radii `[i]` over wavelengths `[i + 1]`. -/
def oracleAllOk : ℕ → WVal × WVal → Except String (List ℚ × List ℚ) :=
  fun i _ => Except.ok ([(i : ℚ)], [(i : ℚ) + 1])

/-- Witness for C10: a two-order run writes the two expected files. -/
theorem per_order_output_witness :
    runLoop oracleAllOk 2 "D/" (WVal.scalar 1) (WVal.scalar 2) [0, 1] 0 =
      ([("D/template_det0.pic", ([1], [0])),
        ("D/template_det1.pic", ([2], [-1 / 4]))], none) := by
  have h := per_order_output oracleAllOk
    (fun i => ([(i : ℚ)], [(i : ℚ) + 1])) (fun i w => rfl) 2 "D/"
    (WVal.scalar 1) (WVal.scalar 2) [0, 1] 0
  rw [h]
  simp only [List.enumFrom, List.map_cons, List.map_nil, DF]
  norm_num
  exact ⟨rfl, rfl⟩

end PRT
